import Mathlib

/-!
Shallow embedding of the token lifecycle and upstream-request resilience core
of the QuickBooks integration service (app/services/token_service.py,
app/services/quickbooks_service.py, app/services/account_service.py,
app/api/quickbooks.py, app/core/constants.py, app/models/database.py,
app/models/token.py).

Modelling conventions:
- `datetime.utcnow()` timestamps are integers (seconds); the store is a list
  of rows; `db.query(...).filter(realm_id == r).first()` is `List.find?`;
  an ORM in-place row mutation plus commit is `replaceFirst`.
- External calls (`requests.request`, the OAuth refresh endpoint,
  `response.json()`) are parameters: an attempt sequence `Nat → Attempt`
  indexed by the number of requests already made, a refresh oracle
  `String → Except String Token`, and a JSON decode oracle
  `String → Except String Json`.
- Every Python exception path is a value-level error constructor; all the
  source's exceptions are `ValueError`s distinguished here by constructor,
  carrying the data interpolated into the source's message.
-/

/-- Constant from app/core/constants.py: `RATE_LIMIT_MAX_RETRIES = 3`. -/
def RATE_LIMIT_MAX_RETRIES : Nat := 3

/-- Constant from app/core/constants.py: `RATE_LIMIT_RETRY_DELAY = 1` (seconds). -/
def RATE_LIMIT_RETRY_DELAY : Int := 1

/-- Constant from app/core/constants.py: the rate-limit header name. -/
def RATE_LIMIT_HEADER : String := "Retry-After"

/-- Constant from app/core/constants.py: `RESPONSE_QUERY = "QueryResponse"`. -/
def RESPONSE_QUERY : String := "QueryResponse"

/-- Constant from app/core/constants.py: `RESPONSE_ACCOUNT = "Account"`. -/
def RESPONSE_ACCOUNT : String := "Account"

/-- Constant from app/core/constants.py: `RESPONSE_ERROR = "error"`. -/
def RESPONSE_ERROR : String := "error"

/-- The not-authenticated message raised by AccountService.get_accounts
(app/services/account_service.py line 34). -/
def ERROR_NOT_AUTHENTICATED : String :=
  "Not authenticated with QuickBooks. Please visit /auth/quickbooks first."

/-- Character-level lowercasing (Python `str.lower`, restricted to the ASCII
range the claims exercise). -/
def lowerChars (cs : List Char) : List Char := cs.map Char.toLower

/-- Character-level whitespace stripping from both ends (Python
`str.strip()` with no argument). -/
def trimChars (cs : List Char) : List Char :=
  ((cs.dropWhile Char.isWhitespace).reverse.dropWhile Char.isWhitespace).reverse

/-- Python `s.strip()` as a string-to-string function. -/
def pyStrip (s : String) : String := String.mk (trimChars s.data)

/-- Parse a nonempty all-decimal-digit character run to a natural number. -/
def digitsToNat? (cs : List Char) : Option Nat :=
  if cs.isEmpty then none
  else if cs.all Char.isDigit then
    some (cs.foldl (fun n c => 10 * n + (c.toNat - 48)) 0)
  else none

/-- Python `int(s)` on a string, as used on the Retry-After header value:
surrounding whitespace is stripped, an optional single sign is allowed, and
the rest must be a nonempty run of decimal digits; otherwise `int` raises
`ValueError` (modelled as `none`). Underscore digit grouping and non-ASCII
digits accepted by CPython are not modelled; no claim exercises them. -/
def pyInt? (s : String) : Option Int :=
  match trimChars s.data with
  | [] => none
  | c :: ds =>
    if c = (('-') : Char) then (digitsToNat? ds).map (fun n => -(n : Int))
    else if c = (('+') : Char) then (digitsToNat? ds).map (fun n => (n : Int))
    else (digitsToNat? (c :: ds)).map (fun n => (n : Int))

/-- Lookup in a `requests` response-header mapping (`response.headers.get`),
which is case-insensitive on the header name. -/
def getHeader (headers : List (String × String)) (name : String) : Option String :=
  (headers.find? (fun p => lowerChars p.fst.data == lowerChars name.data)).map
    (fun p => p.snd)

/-- Contiguous-substring test on character lists. -/
def isSubChars (needle : List Char) : List Char → Bool
  | [] => needle.isEmpty
  | c :: cs => needle.isPrefixOf (c :: cs) || isSubChars needle cs

/-- Python `RESPONSE_ERROR in text.lower()`: case-insensitive substring test
used by QuickBooksClient.get_accounts (app/api/quickbooks.py line 256). -/
def containsErrorWord (text : String) : Bool :=
  isSubChars RESPONSE_ERROR.data (lowerChars text.data)

/-- The transient OAuth token value (app/models/token.py `Token`); the two
optional fields `created_at` and `realm_id` are never read by the core flow
and are omitted. -/
structure Token where
  access_token : String
  refresh_token : String
  token_type : String
  expires_in : Int
  x_refresh_token_expires_in : Int
deriving Repr, DecidableEq

/-- A row of the `quickbooks_tokens` table (app/models/database.py
`QuickBooksToken`); `realm_id` is the primary key, `created_at` is an
integer timestamp in seconds. -/
structure QuickBooksToken where
  realm_id : String
  access_token : String
  refresh_token : String
  token_type : String
  expires_in : Int
  x_refresh_token_expires_in : Int
  created_at : Int
deriving Repr, DecidableEq

/-- The row built by TokenService.store_tokens (token_service.py lines
41-49) from a fresh `Token`, with `created_at = datetime.utcnow()`. -/
def mkDbToken (tokens : Token) (realm_id : String) (now : Int) : QuickBooksToken :=
  { realm_id := realm_id
    access_token := tokens.access_token
    refresh_token := tokens.refresh_token
    token_type := tokens.token_type
    expires_in := tokens.expires_in
    x_refresh_token_expires_in := tokens.x_refresh_token_expires_in
    created_at := now }

/-- Replace the first element satisfying `p` with `rec`, leaving the rest
unchanged: the effect of mutating the row returned by
`query(...).filter(...).first()` and committing. -/
def replaceFirst {α : Type} (p : α → Bool) (rec : α) : List α → List α
  | [] => []
  | t :: ts => if p t then rec :: ts else t :: replaceFirst p rec ts

/-- TokenService.store_tokens (token_service.py lines 29-60), restricted to
its effect on the store: build the new row; if a row with the same
`realm_id` exists, overwrite all of its fields in place, else insert.
The returned success dictionary is not modelled; no claim concerns it. -/
def storeTokens (tokens : Token) (realm_id : String) (now : Int)
    (db : List QuickBooksToken) : List QuickBooksToken :=
  let db_token := mkDbToken tokens realm_id now
  match db.find? (fun t => t.realm_id == realm_id) with
  | some _ => replaceFirst (fun t => t.realm_id == realm_id) db_token db
  | none => db ++ [db_token]

/-- Result of TokenService.get_valid_token: the returned optional access
token, the store after the call, and how many upstream refresh calls were
made (0 or 1). -/
structure GetValidResult where
  token : Option String
  db : List QuickBooksToken
  refreshCalls : Nat
deriving Repr, DecidableEq

/-- TokenService.get_valid_token (token_service.py lines 74-110). Look up
the row by `realm_id`; absent means `None`. If
`now - created_at > expires_in` the token is stale: call the refresh
oracle; on success overwrite the row's token fields, reset `created_at` to
now, commit, and return the new access token; on any exception return
`None` (the store is untouched, since the exception precedes the row
mutation). Otherwise return the stored access token. -/
def getValidToken (realm_id : String) (now : Int)
    (refresh : String → Except String Token)
    (db : List QuickBooksToken) : GetValidResult :=
  match db.find? (fun t => t.realm_id == realm_id) with
  | none => ⟨none, db, 0⟩
  | some db_token =>
    if db_token.expires_in < now - db_token.created_at then
      match refresh db_token.refresh_token with
      | Except.ok new_tokens =>
        let updated : QuickBooksToken :=
          { db_token with
            access_token := new_tokens.access_token
            refresh_token := new_tokens.refresh_token
            token_type := new_tokens.token_type
            expires_in := new_tokens.expires_in
            x_refresh_token_expires_in := new_tokens.x_refresh_token_expires_in
            created_at := now }
        ⟨some new_tokens.access_token,
          replaceFirst (fun t => t.realm_id == realm_id) updated db, 1⟩
      | Except.error _ => ⟨none, db, 1⟩
    else ⟨some db_token.access_token, db, 0⟩

/-- At most one row per realm: the primary-key invariant of the
`quickbooks_tokens` table. -/
def uniquePerRealm (db : List QuickBooksToken) : Prop :=
  ∀ realm : String, (db.filter (fun t => t.realm_id == realm)).length ≤ 1

/-- An upstream HTTP response, as far as the core reads it: status code,
headers, body text. -/
structure HttpResponse where
  status_code : Nat
  headers : List (String × String)
  text : String
deriving Repr, DecidableEq

/-- Outcome of one `requests.request` call: either a response or a
network-level `requests.exceptions.RequestException` with its message. -/
inductive Attempt where
  | response (r : HttpResponse)
  | netError (msg : String)
deriving Repr, DecidableEq

/-- The `ValueError`s that can leave QuickBooksService._make_request,
distinguished by constructor and carrying the data interpolated into each
source message: ERROR_SERVER_ERROR, ERROR_API_COMMUNICATION,
ERROR_RATE_LIMIT, and the uncaught `ValueError` raised by `int()` on a
non-integer Retry-After header value (which carries the offending
literal). -/
inductive ReqError where
  | serverError (status_code : Nat)
  | communicationError (msg : String)
  | rateLimitExceeded (retry_after : Int)
  | retryAfterConversionError (literal : String)
deriving Repr, DecidableEq

/-- Result of QuickBooksService._make_request: the returned response or the
escaping error, together with the sequence of `time.sleep` durations and
the number of `requests.request` calls made. -/
structure MakeRequestResult where
  result : Except ReqError HttpResponse
  sleeps : List Int
  requestsMade : Nat
deriving Repr

/-- QuickBooksService._handle_rate_limit (quickbooks_service.py lines
70-84): on a 429, `int(response.headers.get(RATE_LIMIT_HEADER,
RATE_LIMIT_RETRY_DELAY))`. The Python pair (should_retry, retry_after) is
encoded as `Option Int` — the source always pairs `True` with an integer
delay and `False` with `None`; `Except.error v` is the `ValueError` raised
by `int()` when the header value `v` is present but not an integer
literal. When the header is absent, `get` returns the integer default
`RATE_LIMIT_RETRY_DELAY` and `int` is the identity on it. -/
def handleRateLimit (response : HttpResponse) : Except String (Option Int) :=
  if response.status_code = 429 then
    match getHeader response.headers RATE_LIMIT_HEADER with
    | some v =>
      match pyInt? v with
      | some retry_after => Except.ok (some retry_after)
      | none => Except.error v
    | none => Except.ok (some RATE_LIMIT_RETRY_DELAY)
  else Except.ok none

/-- The `while retries < RATE_LIMIT_MAX_RETRIES` loop of
QuickBooksService._make_request (quickbooks_service.py lines 101-125),
translated with `fuel = RATE_LIMIT_MAX_RETRIES - retries` as the
structural measure; the Python guard `retries < RATE_LIMIT_MAX_RETRIES`
is `fuel > 0`, and the network-error check
`retries == RATE_LIMIT_MAX_RETRIES - 1` is `fuel = 1` (pattern
`fuel + 1` with `fuel = 0`). `made` counts requests already made and
indexes the attempt sequence; each loop iteration makes exactly one
request, so `made` equals the current `retries` value at iteration
entry. Loop exit without return raises ERROR_RATE_LIMIT formatted with
the default delay. -/
def makeRequestLoop (attempts : Nat → Attempt) :
    Nat → List Int → Nat → MakeRequestResult
  | 0, sleeps, made =>
    ⟨Except.error (ReqError.rateLimitExceeded RATE_LIMIT_RETRY_DELAY), sleeps, made⟩
  | fuel + 1, sleeps, made =>
    match attempts made with
    | Attempt.netError msg =>
      if fuel = 0 then
        ⟨Except.error (ReqError.communicationError msg), sleeps, made + 1⟩
      else
        makeRequestLoop attempts fuel (sleeps ++ [RATE_LIMIT_RETRY_DELAY]) (made + 1)
    | Attempt.response r =>
      match handleRateLimit r with
      | Except.error v =>
        ⟨Except.error (ReqError.retryAfterConversionError v), sleeps, made + 1⟩
      | Except.ok (some retry_after) =>
        makeRequestLoop attempts fuel (sleeps ++ [retry_after]) (made + 1)
      | Except.ok none =>
        if 500 ≤ r.status_code then
          ⟨Except.error (ReqError.serverError r.status_code), sleeps, made + 1⟩
        else
          ⟨Except.ok r, sleeps, made + 1⟩

/-- QuickBooksService._make_request on a given sequence of attempt
outcomes: the loop starting from `retries = 0`. -/
def makeRequest (attempts : Nat → Attempt) : MakeRequestResult :=
  makeRequestLoop attempts RATE_LIMIT_MAX_RETRIES [] 0

/-- A decoded JSON value, the result of `response.json()`. -/
inductive Json where
  | null
  | bool (b : Bool)
  | num (n : Int)
  | str (s : String)
  | arr (xs : List Json)
  | obj (fields : List (String × Json))
deriving Repr

/-- The `ValueError`s that can leave QuickBooksService.get_accounts (and
QuickBooksClient.get_accounts), distinguished by constructor:
ERROR_UNAUTHORIZED, ERROR_BAD_REQUEST (with the body text),
ERROR_FORBIDDEN, ERROR_JSON_PARSE (with the decode-error message), the
client-only QuickBooks-API-Error branch (with the raw body), and errors
propagated unchanged out of _make_request. -/
inductive AccountsError where
  | unauthorized
  | badRequest (body : String)
  | forbidden
  | parseError (err : String)
  | upstreamError (raw : String)
  | transport (e : ReqError)
deriving Repr

/-- The synthetic empty payload returned on an empty body
(quickbooks_service.py line 257). -/
def emptyAccountsPayload : Json :=
  Json.obj [(RESPONSE_QUERY, Json.obj [(RESPONSE_ACCOUNT, Json.arr [])])]

/-- Response interpretation of QuickBooksService.get_accounts
(quickbooks_service.py lines 248-263), applied to the _make_request
outcome: 401/400/403 checks, the whitespace-only-body synthetic result,
then `response.json()` (the decode oracle), whose decode failure always
raises ERROR_JSON_PARSE. Request construction (URL, headers, query body)
is not modelled; no claim concerns it. -/
def getAccountsCore (decode : String → Except String Json)
    (mr : MakeRequestResult) : Except AccountsError Json :=
  match mr.result with
  | Except.error e => Except.error (AccountsError.transport e)
  | Except.ok response =>
    if response.status_code = 401 then Except.error AccountsError.unauthorized
    else if response.status_code = 400 then
      Except.error (AccountsError.badRequest response.text)
    else if response.status_code = 403 then Except.error AccountsError.forbidden
    else if pyStrip response.text = "" then Except.ok emptyAccountsPayload
    else
      match decode response.text with
      | Except.ok payload => Except.ok payload
      | Except.error e => Except.error (AccountsError.parseError e)

/-- Result of the accounts query: outcome plus the sleeps and request
count of the underlying _make_request call. -/
structure GetAccountsResult where
  result : Except AccountsError Json
  sleeps : List Int
  requestsMade : Nat
deriving Repr

/-- QuickBooksService.get_accounts (quickbooks_service.py lines 201-267):
_make_request followed by response interpretation. Errors from
_make_request are `ValueError`s, so the outer
`except requests.exceptions.RequestException` does not catch them; they
propagate unchanged (the `transport` constructor). -/
def getAccounts (decode : String → Except String Json)
    (attempts : Nat → Attempt) : GetAccountsResult :=
  let mr := makeRequest attempts
  ⟨getAccountsCore decode mr, mr.sleeps, mr.requestsMade⟩

/-- Response interpretation of QuickBooksClient.get_accounts
(app/api/quickbooks.py lines 238-259): identical to the service version
except on decode failure, where it first checks
`RESPONSE_ERROR in response.text.lower()` and raises the
QuickBooks-API-Error `ValueError` carrying the raw body when the check
succeeds, falling back to ERROR_JSON_PARSE otherwise. -/
def clientGetAccountsCore (decode : String → Except String Json)
    (mr : MakeRequestResult) : Except AccountsError Json :=
  match mr.result with
  | Except.error e => Except.error (AccountsError.transport e)
  | Except.ok response =>
    if response.status_code = 401 then Except.error AccountsError.unauthorized
    else if response.status_code = 400 then
      Except.error (AccountsError.badRequest response.text)
    else if response.status_code = 403 then Except.error AccountsError.forbidden
    else if pyStrip response.text = "" then Except.ok emptyAccountsPayload
    else
      match decode response.text with
      | Except.ok payload => Except.ok payload
      | Except.error e =>
        if containsErrorWord response.text then
          Except.error (AccountsError.upstreamError response.text)
        else Except.error (AccountsError.parseError e)

/-- Caller-facing failures of AccountService.get_accounts: the
not-authenticated `ValueError` (message ERROR_NOT_AUTHENTICATED), or an
upstream failure re-raised as `ValueError(str(e))`, which preserves the
underlying error's content. -/
inductive AccountServiceError where
  | notAuthenticated
  | upstream (e : AccountsError)
deriving Repr

/-- AccountService.get_accounts (app/services/account_service.py lines
13-44): obtain a token via TokenService.get_valid_token; a falsy result
(`None` or the empty string, by Python truthiness) raises the
not-authenticated `ValueError`; otherwise delegate to
QuickBooksService.get_accounts, re-raising any failure as
`ValueError(str(e))`. Returns the outcome paired with the token store
after the call. -/
def accountServiceGetAccounts (realm_id : String) (now : Int)
    (refresh : String → Except String Token)
    (decode : String → Except String Json) (attempts : Nat → Attempt)
    (db : List QuickBooksToken) :
    Except AccountServiceError Json × List QuickBooksToken :=
  let gv := getValidToken realm_id now refresh db
  match gv.token with
  | none => (Except.error AccountServiceError.notAuthenticated, gv.db)
  | some access_token =>
    if access_token = "" then
      (Except.error AccountServiceError.notAuthenticated, gv.db)
    else
      match (getAccounts decode attempts).result with
      | Except.ok payload => (Except.ok payload, gv.db)
      | Except.error e => (Except.error (AccountServiceError.upstream e), gv.db)

/-! Concrete fixtures used to instantiate the theorems below. -/

/-- A refresh oracle whose upstream grant is always rejected. -/
def refreshFail : String → Except String Token :=
  fun _ => Except.error "invalid_grant"

/-- A fresh token pair as returned by a successful refresh. -/
def newTokens : Token :=
  ⟨"new-access", "new-refresh", "bearer", 3600, 8726400⟩

/-- A refresh oracle that always succeeds with `newTokens`. -/
def refreshOkDemo : String → Except String Token :=
  fun _ => Except.ok newTokens

/-- A stored row whose access token is past its TTL at `now = 200`. -/
def staleRecord : QuickBooksToken :=
  ⟨"realm1", "stored-access", "stored-refresh", "bearer", 100, 8726400, 0⟩

/-- A stored row observed exactly at its TTL boundary at `now = 100`. -/
def boundaryRecord : QuickBooksToken :=
  ⟨"realm2", "edge-access", "edge-refresh", "bearer", 100, 8726400, 0⟩

/-- A stored row still within its TTL at `now = 50`. -/
def freshRecord : QuickBooksToken :=
  ⟨"realm3", "fresh-access", "fresh-refresh", "bearer", 100, 8726400, 0⟩

/-- Two token pairs for consecutive store_tokens calls. -/
def tokenA : Token := ⟨"accessA", "refreshA", "bearer", 3600, 8726400⟩

/-- Second token pair, with different values from `tokenA`. -/
def tokenB : Token := ⟨"accessB", "refreshB", "bearer", 7200, 8726401⟩

/-- Body text of the demo 200 response. -/
def demoText : String := "demo-accounts-json"

/-- The payload the demo body decodes to. -/
def demoPayload : Json :=
  Json.obj [(RESPONSE_QUERY, Json.obj [(RESPONSE_ACCOUNT, Json.arr [Json.str "Checking"])])]

/-- A decode oracle: succeeds exactly on `demoText`, otherwise fails with a
typical json.JSONDecodeError message. -/
def decodeDemo : String → Except String Json :=
  fun s =>
    if s = demoText then Except.ok demoPayload
    else Except.error "Expecting value: line 1 column 1 (char 0)"

/-- A 429 response carrying Retry-After: 1. -/
def resp429 : HttpResponse := ⟨429, [(RATE_LIMIT_HEADER, "1")], ""⟩

/-- A 200 response carrying the demo body. -/
def resp200demo : HttpResponse := ⟨200, [], demoText⟩

/-- Attempt sequence: two 429s (Retry-After: 1) then a 200. -/
def attemptsTwo429 : Nat → Attempt :=
  fun n => if n < 2 then Attempt.response resp429 else Attempt.response resp200demo

/-- Attempt sequence: 429 (Retry-After: 1) on every attempt. -/
def attemptsAll429 : Nat → Attempt := fun _ => Attempt.response resp429

/-- A non-JSON 200 body containing the word "Error". -/
def errBodyText : String := "Unexpected Error occurred"

/-- The 200 response carrying that body. -/
def respErrBody : HttpResponse := ⟨200, [], errBodyText⟩

/-- Attempt sequence returning the error-worded body. -/
def attemptsErrBody : Nat → Attempt := fun _ => Attempt.response respErrBody

/-- A 503 server-error response. -/
def resp503 : HttpResponse := ⟨503, [], "gateway timeout"⟩

/-- Attempt sequence returning the 503. -/
def attempts503 : Nat → Attempt := fun _ => Attempt.response resp503

/-- A 429 whose Retry-After value is not an integer literal. -/
def respBadRetryAfter : HttpResponse := ⟨429, [(RATE_LIMIT_HEADER, "soon")], ""⟩

/-- Attempt sequence returning the malformed-header 429. -/
def attemptsBadRetryAfter : Nat → Attempt :=
  fun _ => Attempt.response respBadRetryAfter

/-- A 200 response with a whitespace-only body. -/
def respBlank : HttpResponse := ⟨200, [], "   "⟩

/-- Attempt sequence returning the blank-body 200. -/
def attemptsBlank : Nat → Attempt := fun _ => Attempt.response respBlank

/-! Helper lemmas. -/

/-- Replacing the first `p`-match with a `p`-satisfying element in a list
holding at most one `p`-match leaves `[rec]` as the `p`-filtered part. -/
theorem replaceFirst_filter_self {α : Type} (p : α → Bool) (rec : α)
    (hrec : p rec = true) :
    ∀ l : List α, (l.filter p).length ≤ 1 → (l.find? p).isSome →
      (replaceFirst p rec l).filter p = [rec] := by
  intro l
  induction l with
  | nil => intro _ hf; simp [List.find?] at hf
  | cons t ts ih =>
    intro hlen hf
    by_cases hp : p t = true
    · have hts : ts.filter p = [] := by
        rw [List.filter_cons_of_pos hp] at hlen
        simp only [List.length_cons] at hlen
        exact List.eq_nil_of_length_eq_zero (by omega)
      simp [replaceFirst, hp, List.filter_cons_of_pos hrec, hts]
    · have hp' : p t = false := by simpa using hp
      have hlen' : (ts.filter p).length ≤ 1 := by
        rwa [List.filter_cons_of_neg (by simp [hp'])] at hlen
      have hf' : (ts.find? p).isSome := by
        simpa [List.find?_cons, hp'] using hf
      simp [replaceFirst, hp', List.filter_cons_of_neg, ih hlen' hf']

/-- Replacing a `p`-match with `rec` does not change the `q`-filtered part,
when `p`-matches and `rec` all fail `q`. -/
theorem replaceFirst_filter_other {α : Type} (p q : α → Bool) (rec : α)
    (hq : q rec = false) (himp : ∀ x, p x = true → q x = false) :
    ∀ l : List α, (replaceFirst p rec l).filter q = l.filter q := by
  intro l
  induction l with
  | nil => rfl
  | cons t ts ih =>
    by_cases hp : p t = true
    · have hqt : q t = false := himp t hp
      simp [replaceFirst, hp, List.filter_cons, hq, hqt]
    · have hp' : p t = false := by simpa using hp
      simp [replaceFirst, hp', List.filter_cons, ih]

/-- After replacing the first `p`-match with a `p`-satisfying `rec`,
`find?` returns `rec`. -/
theorem find?_replaceFirst {α : Type} (p : α → Bool) (rec : α)
    (hrec : p rec = true) :
    ∀ l : List α, (l.find? p).isSome →
      (replaceFirst p rec l).find? p = some rec := by
  intro l
  induction l with
  | nil => intro h; simp [List.find?] at h
  | cons t ts ih =>
    intro h
    by_cases hp : p t = true
    · simp [replaceFirst, hp, List.find?_cons, hrec]
    · have hp' : p t = false := by simpa using hp
      have h' : (ts.find? p).isSome := by
        simpa [List.find?_cons, hp'] using h
      simp [replaceFirst, hp', List.find?_cons, ih h']

/-- On a store satisfying the per-realm uniqueness invariant, store_tokens
leaves exactly the freshly built row for the written realm. -/
theorem storeTokens_filter_self (tokens : Token) (realm : String) (now : Int)
    (db : List QuickBooksToken) (hdb : uniquePerRealm db) :
    (storeTokens tokens realm now db).filter (fun t => t.realm_id == realm) =
      [mkDbToken tokens realm now] := by
  cases hfind : db.find? (fun t => t.realm_id == realm) with
  | none =>
    have hnil : db.filter (fun t => t.realm_id == realm) = [] :=
      List.filter_eq_nil_iff.mpr
        (fun x hx => by simpa using List.find?_eq_none.mp hfind x hx)
    simp [storeTokens, hfind, List.filter_append, hnil, mkDbToken]
  | some x =>
    have h1 : (db.filter (fun t => t.realm_id == realm)).length ≤ 1 := hdb realm
    have h2 : (db.find? (fun t => t.realm_id == realm)).isSome := by simp [hfind]
    simpa [storeTokens, hfind] using
      replaceFirst_filter_self (fun t => t.realm_id == realm)
        (mkDbToken tokens realm now) (by simp [mkDbToken]) db h1 h2

/-- store_tokens for one realm does not change the rows of other realms. -/
theorem storeTokens_filter_other (tokens : Token) (realm : String) (now : Int)
    (db : List QuickBooksToken) (realm' : String) (hne : realm' ≠ realm) :
    (storeTokens tokens realm now db).filter (fun t => t.realm_id == realm') =
      db.filter (fun t => t.realm_id == realm') := by
  have hq : ((mkDbToken tokens realm now).realm_id == realm') = false := by
    simp [mkDbToken]
    exact fun h => hne h.symm
  cases hfind : db.find? (fun t => t.realm_id == realm) with
  | none => simp [storeTokens, hfind, List.filter_append, hq]
  | some x =>
    simpa [storeTokens, hfind] using
      replaceFirst_filter_other (fun t => t.realm_id == realm)
        (fun t => t.realm_id == realm') (mkDbToken tokens realm now) hq
        (fun y hy => by
          have hy' : y.realm_id = realm := by simpa using hy
          simp [hy']
          exact fun h => hne h.symm) db

/-- store_tokens preserves the per-realm uniqueness invariant. -/
theorem storeTokens_uniq (tokens : Token) (realm : String) (now : Int)
    (db : List QuickBooksToken) (hdb : uniquePerRealm db) :
    uniquePerRealm (storeTokens tokens realm now db) := by
  intro realm'
  by_cases h : realm' = realm
  · subst h
    rw [storeTokens_filter_self tokens realm' now db hdb]
    simp
  · rw [storeTokens_filter_other tokens realm now db realm' h]
    exact hdb realm'

/-- When the stored row is found and its elapsed age does not exceed the
TTL, get_valid_token returns the stored access token, leaves the store
unchanged, and makes no refresh call. -/
theorem getValidToken_of_not_stale (realm : String) (now : Int)
    (refresh : String → Except String Token) (db : List QuickBooksToken)
    (tok : QuickBooksToken)
    (hfind : db.find? (fun t => t.realm_id == realm) = some tok)
    (h : now - tok.created_at ≤ tok.expires_in) :
    getValidToken realm now refresh db = ⟨some tok.access_token, db, 0⟩ := by
  have hlt : ¬ (tok.expires_in < now - tok.created_at) := not_lt.mpr h
  simp [getValidToken, hfind, hlt]

/-! Claim theorems. -/

/-- C1 (code bug): the claim says a non-empty body failing JSON decoding
fails with the upstream-error `ValueError` carrying the raw text when the
body contains "error" case-insensitively, and with the parse error
otherwise. QuickBooksService.get_accounts — the symbol the claim cites and
the one AccountService calls — lacks that branch and raises the parse
error for every undecodable body, even one containing "error"; the sister
implementation QuickBooksClient.get_accounts (app/api/quickbooks.py) has
exactly the claimed branch, and the service file imports RESPONSE_ERROR
without using it. Evaluated at the failing input: a 200 response with the
non-JSON body "Unexpected Error occurred". -/
theorem c1_missing_upstream_error_branch :
    containsErrorWord errBodyText = true ∧
    (getAccounts decodeDemo attemptsErrBody).result =
      Except.error (AccountsError.parseError
        "Expecting value: line 1 column 1 (char 0)") ∧
    clientGetAccountsCore decodeDemo (makeRequest attemptsErrBody) =
      Except.error (AccountsError.upstreamError errBodyText) :=
  ⟨rfl, rfl, rfl⟩

/-- C2 counterexample: at a concrete stale credential whose refresh fails,
exactly one refresh call is made, get_valid_token returns `None`, and
AccountService surfaces the very same not-authenticated error it produces
when no credential is stored at all — not a distinct refresh-failed
error. -/
theorem c2_refresh_failure_counterexample :
    (getValidToken "realm1" 200 refreshFail [staleRecord]).refreshCalls = 1 ∧
    (accountServiceGetAccounts "realm1" 200 refreshFail decodeDemo attemptsAll429
        [staleRecord]).1 =
      Except.error AccountServiceError.notAuthenticated ∧
    (accountServiceGetAccounts "realm1" 200 refreshFail decodeDemo attemptsAll429
        []).1 =
      Except.error AccountServiceError.notAuthenticated :=
  ⟨rfl, rfl, rfl⟩

/-- C2 (amended): for every stored credential whose access token is stale,
if the upstream refresh fails, get_valid_token returns `None` without
falling back to the stale access token and leaves the store unchanged, and
the account service surfaces this as the not-authenticated error — the
same outcome as having no stored credential, not a distinct
refresh-failed error. -/
theorem c2_refresh_failure_behavior (realm : String) (now : Int)
    (refresh : String → Except String Token)
    (decode : String → Except String Json) (attempts : Nat → Attempt)
    (db : List QuickBooksToken) (tok : QuickBooksToken) (msg : String)
    (hfind : db.find? (fun t => t.realm_id == realm) = some tok)
    (hstale : tok.expires_in < now - tok.created_at)
    (hfail : refresh tok.refresh_token = Except.error msg) :
    getValidToken realm now refresh db = ⟨none, db, 1⟩ ∧
    (accountServiceGetAccounts realm now refresh decode attempts db).1 =
      Except.error AccountServiceError.notAuthenticated ∧
    (accountServiceGetAccounts realm now refresh decode attempts []).1 =
      Except.error AccountServiceError.notAuthenticated := by
  have h1 : getValidToken realm now refresh db = ⟨none, db, 1⟩ := by
    simp [getValidToken, hfind, hstale, hfail]
  refine ⟨h1, ?_, ?_⟩
  · simp [accountServiceGetAccounts, h1]
  · simp [accountServiceGetAccounts, getValidToken]

/-- C2 witness: the amended statement at the concrete stale credential. -/
theorem c2_refresh_failure_behavior_witness :
    getValidToken "realm1" 200 refreshFail [staleRecord] =
      ⟨none, [staleRecord], 1⟩ ∧
    (accountServiceGetAccounts "realm1" 200 refreshFail decodeDemo attemptsAll429
        [staleRecord]).1 =
      Except.error AccountServiceError.notAuthenticated ∧
    (accountServiceGetAccounts "realm1" 200 refreshFail decodeDemo attemptsAll429
        []).1 =
      Except.error AccountServiceError.notAuthenticated :=
  c2_refresh_failure_behavior "realm1" 200 refreshFail decodeDemo attemptsAll429
    [staleRecord] staleRecord "invalid_grant" rfl (by decide) rfl

/-- C3 counterexample: a credential observed exactly at its TTL boundary
(`now - created_at = expires_in = 100`) is returned unchanged with zero
refresh calls, although the claim says this boundary counts as stale and
triggers a refresh — even with a refresh oracle that would succeed. -/
theorem c3_boundary_counterexample :
    getValidToken "realm2" 100 refreshOkDemo [boundaryRecord] =
      ⟨some "edge-access", [boundaryRecord], 0⟩ :=
  rfl

/-- C3 (amended): a stored credential whose elapsed age exactly equals
`access_ttl_seconds` is treated as still valid: get_valid_token returns
the stored access token, leaves the store unchanged, and makes no refresh
call; only a strictly greater elapsed age triggers a refresh. -/
theorem c3_boundary_still_valid (realm : String) (now : Int)
    (refresh : String → Except String Token) (db : List QuickBooksToken)
    (tok : QuickBooksToken)
    (hfind : db.find? (fun t => t.realm_id == realm) = some tok)
    (hb : now - tok.created_at = tok.expires_in) :
    getValidToken realm now refresh db = ⟨some tok.access_token, db, 0⟩ :=
  getValidToken_of_not_stale realm now refresh db tok hfind (le_of_eq hb)

/-- C3 witness: the amended statement at the concrete boundary credential. -/
theorem c3_boundary_still_valid_witness :
    getValidToken "realm2" 100 refreshOkDemo [boundaryRecord] =
      ⟨some boundaryRecord.access_token, [boundaryRecord], 0⟩ :=
  c3_boundary_still_valid "realm2" 100 refreshOkDemo [boundaryRecord]
    boundaryRecord rfl (by decide)

/-- C4 (confirmed): for every stored credential with
`now - issued_at <= access_ttl_seconds`, get_valid_token returns the
stored access token unchanged, leaves the store unchanged, and makes no
refresh call. -/
theorem c4_fresh_token_without_refresh (realm : String) (now : Int)
    (refresh : String → Except String Token) (db : List QuickBooksToken)
    (tok : QuickBooksToken)
    (hfind : db.find? (fun t => t.realm_id == realm) = some tok)
    (hfresh : now - tok.created_at ≤ tok.expires_in) :
    getValidToken realm now refresh db = ⟨some tok.access_token, db, 0⟩ :=
  getValidToken_of_not_stale realm now refresh db tok hfind hfresh

/-- C4 witness: the statement at a concrete fresh credential. -/
theorem c4_fresh_token_without_refresh_witness :
    getValidToken "realm3" 50 refreshFail [freshRecord] =
      ⟨some freshRecord.access_token, [freshRecord], 0⟩ :=
  c4_fresh_token_without_refresh "realm3" 50 refreshFail [freshRecord]
    freshRecord rfl (by decide)

/-- C5 (confirmed): for every stored credential with
`now - issued_at > access_ttl_seconds` whose refresh succeeds,
get_valid_token makes exactly one refresh call, returns the new access
token, and persists the row overwritten with the new token fields and
`created_at` reset to now. -/
theorem c5_stale_refresh_success (realm : String) (now : Int)
    (refresh : String → Except String Token) (db : List QuickBooksToken)
    (tok : QuickBooksToken) (nt : Token)
    (hfind : db.find? (fun t => t.realm_id == realm) = some tok)
    (hstale : tok.expires_in < now - tok.created_at)
    (hok : refresh tok.refresh_token = Except.ok nt) :
    getValidToken realm now refresh db =
      ⟨some nt.access_token,
        replaceFirst (fun t => t.realm_id == realm)
          { realm_id := tok.realm_id
            access_token := nt.access_token
            refresh_token := nt.refresh_token
            token_type := nt.token_type
            expires_in := nt.expires_in
            x_refresh_token_expires_in := nt.x_refresh_token_expires_in
            created_at := now } db, 1⟩ ∧
    (getValidToken realm now refresh db).db.find?
        (fun t => t.realm_id == realm) =
      some { realm_id := tok.realm_id
             access_token := nt.access_token
             refresh_token := nt.refresh_token
             token_type := nt.token_type
             expires_in := nt.expires_in
             x_refresh_token_expires_in := nt.x_refresh_token_expires_in
             created_at := now } := by
  have h1 : getValidToken realm now refresh db =
      ⟨some nt.access_token,
        replaceFirst (fun t => t.realm_id == realm)
          { realm_id := tok.realm_id
            access_token := nt.access_token
            refresh_token := nt.refresh_token
            token_type := nt.token_type
            expires_in := nt.expires_in
            x_refresh_token_expires_in := nt.x_refresh_token_expires_in
            created_at := now } db, 1⟩ := by
    simp [getValidToken, hfind, hstale, hok]
  refine ⟨h1, ?_⟩
  rw [h1]
  have hp : (tok.realm_id == realm) = true := by
    simpa using List.find?_some hfind
  have h2 := find?_replaceFirst (fun t => t.realm_id == realm)
    ({ realm_id := tok.realm_id
       access_token := nt.access_token
       refresh_token := nt.refresh_token
       token_type := nt.token_type
       expires_in := nt.expires_in
       x_refresh_token_expires_in := nt.x_refresh_token_expires_in
       created_at := now } : QuickBooksToken) (by simpa using hp)
    db (by simp [hfind])
  simpa using h2

/-- C5 witness: the statement at a concrete stale credential with a
successful refresh. -/
theorem c5_stale_refresh_success_witness :
    getValidToken "realm1" 200 refreshOkDemo [staleRecord] =
      ⟨some newTokens.access_token,
        replaceFirst (fun t => t.realm_id == "realm1")
          { realm_id := staleRecord.realm_id
            access_token := newTokens.access_token
            refresh_token := newTokens.refresh_token
            token_type := newTokens.token_type
            expires_in := newTokens.expires_in
            x_refresh_token_expires_in := newTokens.x_refresh_token_expires_in
            created_at := 200 } [staleRecord], 1⟩ ∧
    (getValidToken "realm1" 200 refreshOkDemo [staleRecord]).db.find?
        (fun t => t.realm_id == "realm1") =
      some { realm_id := staleRecord.realm_id
             access_token := newTokens.access_token
             refresh_token := newTokens.refresh_token
             token_type := newTokens.token_type
             expires_in := newTokens.expires_in
             x_refresh_token_expires_in := newTokens.x_refresh_token_expires_in
             created_at := 200 } :=
  c5_stale_refresh_success "realm1" 200 refreshOkDemo [staleRecord]
    staleRecord newTokens rfl (by decide) rfl

/-- C6 (confirmed): with the default maximum of 3 attempts, two 429
responses carrying Retry-After: 1 followed by a 200 make query_accounts
succeed with the 200 payload after sleeping twice (three requests in
total), while three consecutive 429s exhaust the attempts and fail with
the rate-limit-exceeded error carrying the default delay. -/
theorem c6_retry_policy :
    (getAccounts decodeDemo attemptsTwo429).result = Except.ok demoPayload ∧
    (getAccounts decodeDemo attemptsTwo429).sleeps = [1, 1] ∧
    (getAccounts decodeDemo attemptsTwo429).requestsMade = 3 ∧
    (makeRequest attemptsAll429).result =
      Except.error (ReqError.rateLimitExceeded RATE_LIMIT_RETRY_DELAY) ∧
    (makeRequest attemptsAll429).sleeps = [1, 1, 1] ∧
    (getAccounts decodeDemo attemptsAll429).result =
      Except.error (AccountsError.transport
        (ReqError.rateLimitExceeded RATE_LIMIT_RETRY_DELAY)) :=
  ⟨rfl, rfl, rfl, rfl, rfl, rfl⟩

/-- C7 (confirmed): whenever _make_request receives a response with HTTP
status at least 500 — at any remaining-attempt state, and in particular on
the first attempt — it fails immediately with the server-error carrying
that status code, making no further request and no sleep. -/
theorem c7_server_error_no_retry (attempts : Nat → Attempt) (r : HttpResponse)
    (h5 : 500 ≤ r.status_code) :
    (∀ fuel sleeps made, attempts made = Attempt.response r →
      makeRequestLoop attempts (fuel + 1) sleeps made =
        ⟨Except.error (ReqError.serverError r.status_code), sleeps, made + 1⟩) ∧
    (attempts 0 = Attempt.response r →
      makeRequest attempts =
        ⟨Except.error (ReqError.serverError r.status_code), [], 1⟩) := by
  have h429 : ¬ (r.status_code = 429) := by omega
  have hloop : ∀ fuel sleeps made, attempts made = Attempt.response r →
      makeRequestLoop attempts (fuel + 1) sleeps made =
        ⟨Except.error (ReqError.serverError r.status_code), sleeps, made + 1⟩ := by
    intro fuel sleeps made hm
    simp [makeRequestLoop, hm, handleRateLimit, h429, h5]
  refine ⟨hloop, fun h0 => ?_⟩
  have := hloop 2 [] 0 h0
  simpa [makeRequest, RATE_LIMIT_MAX_RETRIES] using this

/-- C7 witness: the statement at a concrete 503 response. -/
theorem c7_server_error_no_retry_witness :
    makeRequest attempts503 =
      ⟨Except.error (ReqError.serverError 503), [], 1⟩ :=
  (c7_server_error_no_retry attempts503 resp503 (by decide)).2 rfl

/-- C8 (confirmed): a response that is not rate-limited, not a server
error, and not 401/400/403, whose body is empty or whitespace-only, makes
query_accounts return the synthetic empty QueryResponse/Account payload
rather than fail. -/
theorem c8_empty_body_synthetic_payload
    (decode : String → Except String Json) (attempts : Nat → Attempt)
    (r : HttpResponse)
    (h0 : attempts 0 = Attempt.response r)
    (h429 : r.status_code ≠ 429) (h5 : r.status_code < 500)
    (h401 : r.status_code ≠ 401) (h400 : r.status_code ≠ 400)
    (h403 : r.status_code ≠ 403)
    (hblank : pyStrip r.text = "") :
    (getAccounts decode attempts).result = Except.ok emptyAccountsPayload := by
  have h5' : ¬ (500 ≤ r.status_code) := by omega
  have hmr : makeRequest attempts = ⟨Except.ok r, [], 1⟩ := by
    simp [makeRequest, RATE_LIMIT_MAX_RETRIES, makeRequestLoop, h0,
      handleRateLimit, h429, h5']
  simp [getAccounts, hmr, getAccountsCore, h401, h400, h403, hblank]

/-- C8 witness: the statement at a concrete 200 response whose body is
three spaces. -/
theorem c8_empty_body_synthetic_payload_witness :
    (getAccounts decodeDemo attemptsBlank).result =
      Except.ok emptyAccountsPayload :=
  c8_empty_body_synthetic_payload decodeDemo attemptsBlank respBlank rfl
    (by decide) (by decide) (by decide) (by decide) (by decide) rfl

/-- C9 (confirmed): starting from any store with at most one credential
row per tenant, two store_tokens calls for the same tenant preserve that
invariant and leave exactly one row for the tenant, whose fields
(including the reset created_at) are the second call's values. -/
theorem c9_upsert_unique_per_tenant (db : List QuickBooksToken)
    (hdb : uniquePerRealm db) (t1 t2 : Token) (realm : String) (n1 n2 : Int) :
    uniquePerRealm (storeTokens t2 realm n2 (storeTokens t1 realm n1 db)) ∧
    (storeTokens t2 realm n2 (storeTokens t1 realm n1 db)).filter
        (fun t => t.realm_id == realm) = [mkDbToken t2 realm n2] := by
  have h1 := storeTokens_uniq t1 realm n1 db hdb
  exact ⟨storeTokens_uniq t2 realm n2 _ h1,
    storeTokens_filter_self t2 realm n2 _ h1⟩

/-- C9 witness: the row-uniqueness statement at two concrete store_tokens
calls on an initially empty store. -/
theorem c9_upsert_unique_per_tenant_witness :
    (storeTokens tokenB "realmX" 20 (storeTokens tokenA "realmX" 10 [])).filter
        (fun t => t.realm_id == "realmX") = [mkDbToken tokenB "realmX" 20] :=
  (c9_upsert_unique_per_tenant [] (by intro realm; simp) tokenA tokenB
    "realmX" 10 20).2

/-- C10 (confirmed): on a 429 whose Retry-After header is present but not
an integer literal, `int()` raises an uncaught conversion error and
_make_request fails immediately — no sleep, no further attempt; the
1-second default delay arises only from the header-absent branch of
_handle_rate_limit, while a present parseable header always yields the
server-supplied value. -/
theorem c10_retry_after_conversion (r : HttpResponse)
    (h429 : r.status_code = 429) :
    (∀ v, getHeader r.headers RATE_LIMIT_HEADER = some v → pyInt? v = none →
      handleRateLimit r = Except.error v ∧
      ∀ attempts : Nat → Attempt, attempts 0 = Attempt.response r →
        makeRequest attempts =
          ⟨Except.error (ReqError.retryAfterConversionError v), [], 1⟩) ∧
    (getHeader r.headers RATE_LIMIT_HEADER = none →
      handleRateLimit r = Except.ok (some RATE_LIMIT_RETRY_DELAY)) ∧
    (∀ v n, getHeader r.headers RATE_LIMIT_HEADER = some v →
      pyInt? v = some n → handleRateLimit r = Except.ok (some n)) := by
  refine ⟨?_, ?_, ?_⟩
  · intro v hv hbad
    have hrl : handleRateLimit r = Except.error v := by
      simp [handleRateLimit, h429, hv, hbad]
    refine ⟨hrl, fun attempts h0 => ?_⟩
    simp [makeRequest, RATE_LIMIT_MAX_RETRIES, makeRequestLoop, h0, hrl]
  · intro hn
    simp [handleRateLimit, h429, hn]
  · intro v n hv hn
    simp [handleRateLimit, h429, hv, hn]

/-- C10 witness: the conversion-failure statement at a concrete 429 whose
Retry-After value is the word "soon". -/
theorem c10_retry_after_conversion_witness :
    makeRequest attemptsBadRetryAfter =
      ⟨Except.error (ReqError.retryAfterConversionError "soon"), [], 1⟩ :=
  ((c10_retry_after_conversion respBadRetryAfter rfl).1 "soon" rfl rfl).2
    attemptsBadRetryAfter rfl
